import Mathlib

/-!
Verification development for the DB Client Node
(`src/db_client/db_client_node.py`).

A shallow embedding of the node's data model and operations:

* BSON-ish values (`BValue`) and documents (association lists);
* the recursive ObjectId/datetime conversion pass `_convert_objectids`;
* the backup exporter `_perform_backup` and the restorer `_restore_backup`;
* the TTL-index reconciler `_ensure_ttl_index` over an explicit index state,
  with an exception oracle for injected store failures;
* the query pipeline of `_handle_query_data` (filter, sort, skip, limit)
  and its response construction;
* the command dispatcher `_handle_db_command` and the `insert_data` method.

Python exceptions are modelled with `Except`; Python dict mutation is
modelled by explicit state passing (the post-call value of a mutated
argument is returned where a claim depends on it).  MongoDB itself is an
external collaborator: its cursor operations (filter/sort/skip/limit) and
index commands are modelled by list functions and an explicit index list.
-/

namespace DbClient

/-- BSON-ish values as they appear in documents handled by the node.
`oid` carries the hex string `str(ObjectId)` would yield; `dt` carries the
string form of a `datetime` (its `isoformat`, which is also what `str`
produces up to the separator character). -/
inductive BValue where
  | str : String → BValue
  | int : Int → BValue
  | oid : String → BValue
  | dt  : String → BValue
  | doc : List (String × BValue) → BValue
  | arr : List BValue → BValue
deriving Repr

mutual
/-- Structural equality on `BValue` (Python `==` on the corresponding
JSON-ish values). -/
def beqV : BValue → BValue → Bool
  | .str a, .str b => a = b
  | .int a, .int b => a = b
  | .oid a, .oid b => a = b
  | .dt a, .dt b => a = b
  | .doc a, .doc b => beqFields a b
  | .arr a, .arr b => beqList a b
  | _, _ => false

/-- Structural equality over dict fields. -/
def beqFields : List (String × BValue) → List (String × BValue) → Bool
  | [], [] => true
  | (k, v) :: r, (k', v') :: r' => k = k' && beqV v v' && beqFields r r'
  | _, _ => false

/-- Structural equality over list elements. -/
def beqList : List BValue → List BValue → Bool
  | [], [] => true
  | v :: r, v' :: r' => beqV v v' && beqList r r'
  | _, _ => false
end

/-- A document is a Python dict: an ordered association list of fields. -/
abbrev Document := List (String × BValue)

/-- Python `data[key] = value`: overwrite the existing entry in place
(keeping its position, as dicts do) or append a new one. -/
def setField : Document → String → BValue → Document
  | [], k, v => [(k, v)]
  | (k', v') :: rest, k, v =>
      if k' = k then (k, v) :: rest else (k', v') :: setField rest k v

/-- Field lookup in a document (`data.get(key)`). -/
def getField : Document → String → Option BValue
  | [], _ => none
  | (k', v) :: rest, k => if k' = k then some v else getField rest k

mutual
/-- `_convert_objectids(documents)` (db_client_node.py:434-452): iterate over
the list; only elements that are dicts are touched, every other element is
left as it is. -/
def convert_objectids : List BValue → List BValue
  | [] => []
  | d :: rest => convertTop d :: convert_objectids rest

/-- One element of the list handled by `_convert_objectids`: the
`isinstance(doc, dict)` test — non-dict elements pass through unchanged. -/
def convertTop : BValue → BValue
  | .doc fields => .doc (convertFields fields)
  | v => v

/-- The `for key, value in doc.items()` loop of `_convert_objectids`. -/
def convertFields : List (String × BValue) → List (String × BValue)
  | [] => []
  | (k, v) :: rest => (k, convertValue v) :: convertFields rest

/-- The per-value branch of `_convert_objectids`: ObjectId → `str`,
datetime → `isoformat`, dict value → `_convert_objectids([value])`,
list value → `_convert_objectids(value)`, anything else untouched. -/
def convertValue : BValue → BValue
  | .oid s => .str s
  | .dt t => .str t
  | .doc fs => .doc (convertFields fs)
  | .arr xs => .arr (convert_objectids xs)
  | v => v
end

mutual
/-- `json.dump(..., default=str)` as used by `_perform_backup`
(db_client_node.py:176): the JSON serializer recurses through every dict
and list and applies `str` to any non-serializable leaf (ObjectId,
datetime), so unlike `_convert_objectids` it reaches every depth. -/
def strOfValue : BValue → BValue
  | .oid s => .str s
  | .dt t => .str t
  | .doc fs => .doc (strOfFields fs)
  | .arr xs => .arr (strOfList xs)
  | v => v

/-- `default=str` serialization, over the fields of a dict. -/
def strOfFields : List (String × BValue) → List (String × BValue)
  | [] => []
  | (k, v) :: rest => (k, strOfValue v) :: strOfFields rest

/-- `default=str` serialization, over the elements of a list. -/
def strOfList : List BValue → List BValue
  | [] => []
  | v :: rest => strOfValue v :: strOfList rest
end

/-- The database's collections: name ↦ stored documents. -/
abbrev Collections := List (String × List Document)

/-- Fetch a collection's documents; a collection MongoDB has never seen is
empty. -/
def getColl : Collections → String → List Document
  | [], _ => []
  | (n, ds) :: rest, name => if n = name then ds else getColl rest name

/-- Append documents to a named collection, creating it when absent
(MongoDB creates collections lazily on first insert). -/
def insertManyColl (db : Collections) (name : String) (docs : List Document) :
    Collections :=
  match db with
  | [] => [(name, docs)]
  | (n, ds) :: rest =>
      if n = name then (n, ds ++ docs) :: rest
      else (n, ds) :: insertManyColl rest name docs

/-- A backup artifact: the file stem `{backup_name}_{collection_name}`
(the `.json` extension plays no role in the logic) together with the
serialized document array it holds. -/
abbrev BackupFiles := List (String × List Document)

/-- `_perform_backup` (db_client_node.py:158-188): for every collection,
write one artifact named `backup_{timestamp}_{collection}` holding all of
its documents, serialized with `default=str`.  `ts` is the
`%Y%m%d_%H%M%S`-formatted wall-clock timestamp. -/
def perform_backup (ts : String) (db : Collections) : BackupFiles :=
  db.map (fun c => ("backup_" ++ ts ++ "_" ++ c.1, c.2.map strOfFields))

/-- The backup name `_perform_backup` derives from the timestamp. -/
def backupNameOf (ts : String) : String := "backup_" ++ ts

/-- Everything after the first `'_'`: Python's `stem.split('_', 1)[1]`
(db_client_node.py:473).  (When the stem holds no underscore Python would
raise `IndexError`; the glob pattern `{backup_name}_*` guarantees at least
one, so that branch is unreachable in `_restore_backup`.) -/
def afterFirstUnderscore : List Char → List Char
  | [] => []
  | c :: rest => if c = '_' then rest else afterFirstUnderscore rest

/-- Boolean prefix test on character lists, modelling the
`{backup_name}_*.json` glob of `_restore_backup`. -/
def startsWithChars : List Char → List Char → Bool
  | [], _ => true
  | _ :: _, [] => false
  | a :: as, b :: bs => a = b && startsWithChars as bs

/-- `_restore_backup(backup_name)` (db_client_node.py:464-484): glob the
artifacts whose stem starts with `{backup_name}_`, take everything after
the FIRST underscore of the stem as the collection name, and
`insert_many` the documents into that collection (additive: nothing is
cleared first). -/
def restore_backup (backup_name : String) (files : BackupFiles)
    (db : Collections) : Collections :=
  let matching := files.filter
    (fun f => startsWithChars (backup_name ++ "_").toList f.1.toList)
  matching.foldl
    (fun acc f =>
      let collection_name := String.mk (afterFirstUnderscore f.1.toList)
      insertManyColl acc collection_name f.2)
    db

/-! ## TTL index reconciliation (`_ensure_ttl_index`) -/

/-- A MongoDB index as reported by `list_indexes`: its name, its key
pattern, and its `expireAfterSeconds` option when it is a TTL index. -/
structure MongoIndex where
  name : String
  key : List (String × Int)
  expireAfterSeconds : Option Nat
deriving Repr, DecidableEq

/-- Injected store-level failures: each flag makes the corresponding
MongoDB call raise, so that every `except` path of the Python code is
reachable in the model. -/
structure FaultOracle where
  listIndexesFails : Bool
  collModFails : Bool
  createIndexFails : Bool
  insertOneFails : Bool
  findFails : Bool
deriving Repr, DecidableEq

/-- The fault-free oracle: every store call succeeds. -/
def noFaults : FaultOracle := ⟨false, false, false, false, false⟩

/-- The index scan of `_ensure_ttl_index` (db_client_node.py:508-526): the
Python loop `break`s at the first index named `created_at_1` that carries
`expireAfterSeconds`; an index of that name without the option does not
stop the scan. -/
def findTtlIndex (indexes : List MongoIndex) : Option MongoIndex :=
  indexes.find? (fun i => i.name = "created_at_1" && i.expireAfterSeconds.isSome)

/-- The `collMod` command issued at db_client_node.py:518-524: MongoDB
locates the index by its key pattern `{created_at: 1}` and sets its
`expireAfterSeconds`; when no index has that key pattern the command
fails. -/
def collModTtl (expire : Nat) (indexes : List MongoIndex) :
    Option (List MongoIndex) :=
  if indexes.any (fun i => i.key = [("created_at", 1)]) then
    some (indexes.map (fun i =>
      if i.key = [("created_at", 1)] then
        { i with expireAfterSeconds := some expire } else i))
  else none

/-- `create_index("created_at", expireAfterSeconds=..., name="created_at_1")`
(db_client_node.py:530-534): MongoDB refuses to create the index when one
with the same name or the same key pattern but different options already
exists; otherwise the new index is added. -/
def createTtlIndex (expire : Nat) (indexes : List MongoIndex) :
    Option (List MongoIndex) :=
  if indexes.any (fun i => i.name = "created_at_1" || i.key = [("created_at", 1)]) then
    none
  else some (indexes ++ [⟨"created_at_1", [("created_at", 1)], some expire⟩])

/-- The `try` body of `_ensure_ttl_index` (db_client_node.py:498-537),
with store calls raising per the oracle.  On `.error` no index mutation
has happened (each failing MongoDB command is atomic), so the state paired
with the error is the input state. -/
def ensureTtlBody (o : FaultOracle) (data_ttl_days : Nat) (connected : Bool)
    (indexes : List MongoIndex) : Except String (Bool × List MongoIndex) :=
  if !connected then .ok (false, indexes)
  else
    let expire_after_seconds := data_ttl_days * 86400
    if o.listIndexesFails then .error "list_indexes failed"
    else
      match findTtlIndex indexes with
      | some idx =>
          if idx.expireAfterSeconds ≠ some expire_after_seconds then
            if o.collModFails then .error "collMod failed"
            else
              match collModTtl expire_after_seconds indexes with
              | some updated => .ok (true, updated)
              | none => .error "cannot find index by key pattern"
          else .ok (true, indexes)
      | none =>
          if o.createIndexFails then .error "create_index failed"
          else
            match createTtlIndex expire_after_seconds indexes with
            | some updated => .ok (true, updated)
            | none => .error "index conflict"

/-- `_ensure_ttl_index` (db_client_node.py:486-541): the `try`/`except`
wrapper — any exception in the body is caught and turned into a `False`
return, leaving the index state as it was. -/
def ensure_ttl_index (o : FaultOracle) (data_ttl_days : Nat) (connected : Bool)
    (indexes : List MongoIndex) : Bool × List MongoIndex :=
  match ensureTtlBody o data_ttl_days connected indexes with
  | .ok r => r
  | .error _ => (false, indexes)

/-- Number of TTL indexes (indexes carrying `expireAfterSeconds`) in an
index list. -/
def ttlCount (indexes : List MongoIndex) : Nat :=
  indexes.countP (fun i => i.expireAfterSeconds.isSome)

/-- A fresh collection's index state: no index is named `created_at_1`,
none is a TTL index, and none is keyed on `created_at` (e.g. just the
automatic `_id_` index). -/
def FreshIndexes (indexes : List MongoIndex) : Prop :=
  ∀ i ∈ indexes, i.name ≠ "created_at_1" ∧ i.expireAfterSeconds = none ∧
    i.key ≠ [("created_at", 1)]

/-! ## The query pipeline of `_handle_query_data` -/

/-- BSON type rank, for MongoDB's cross-type comparison (restricted to the
value kinds of this model). -/
def typeRank : BValue → Nat
  | .int _ => 1
  | .str _ => 2
  | .doc _ => 3
  | .arr _ => 4
  | .oid _ => 5
  | .dt _ => 6

/-- Model of MongoDB's value comparison: by type rank, then by value for
scalar kinds.  Documents and arrays of equal rank compare equal here — a
coarse model of the external store's ordering; no theorem below depends on
how ties are ordered. -/
def bvCompare (a b : BValue) : Ordering :=
  match a, b with
  | .int x, .int y => compare x y
  | .str x, .str y => compare x y
  | .oid x, .oid y => compare x y
  | .dt x, .dt y => compare x y
  | a, b => compare (typeRank a) (typeRank b)

/-- Field comparison for sorting: a missing field sorts as null, below
every stored value (MongoDB semantics). -/
def fieldCompare (x y : Option BValue) : Ordering :=
  match x, y with
  | none, none => .eq
  | none, some _ => .lt
  | some _, none => .gt
  | some a, some b => bvCompare a b

/-- The sort predicate induced by a sort specification
`[(field, direction), ...]` with direction `1` ascending, `-1` descending:
lexicographic in the given field order. -/
def sortLe (spec : List (String × Int)) (a b : Document) : Bool :=
  match spec with
  | [] => true
  | (f, dir) :: rest =>
      let c := fieldCompare (getField a f) (getField b f)
      let c := if dir < 0 then c.swap else c
      match c with
      | .lt => true
      | .gt => false
      | .eq => sortLe rest a b

/-- Stable insertion step: place `a` before the first element it may
precede, so that ties keep the underlying store's natural order. -/
def sortInsert (le : Document → Document → Bool) (a : Document) :
    List Document → List Document
  | [] => [a]
  | y :: ys => if le a y then a :: y :: ys else y :: sortInsert le a ys

/-- Model of the external store's sort (`cursor.sort(sort_spec)` at
db_client_node.py:282): a stable sort under `sortLe spec`. -/
def mongoSort (spec : List (String × Int)) : List Document → List Document
  | [] => []
  | d :: ds => sortInsert (sortLe spec) d (mongoSort spec ds)

/-- A document matches a basic `{field: value}` MongoDB filter when every
filter entry is present in the document with a structurally equal value;
the empty filter matches everything. -/
def matchesFilter (query_filter : Document) (d : Document) : Bool :=
  query_filter.all (fun kv =>
    match getField d kv.1 with
    | some v => beqV v kv.2
    | none => false)

/-- `cursor.skip(skip)` applied only `if skip > 0` (db_client_node.py:285-286). -/
def mongoSkip (skp : Nat) (xs : List Document) : List Document :=
  if skp > 0 then xs.drop skp else xs

/-- `cursor.limit(limit)` (db_client_node.py:287): MongoDB treats limit 0
as "no limit" and a negative limit like its absolute value. -/
def mongoLimit (lim : Int) (xs : List Document) : List Document :=
  if lim = 0 then xs else xs.take lim.natAbs

/-- The documents matching the filter, in the requested sort order (the
code skips the `sort` call when the spec is empty, db_client_node.py:279). -/
def filteredSorted (docs : List Document) (query_filter : Document)
    (sort_spec : List (String × Int)) : List Document :=
  let filtered := docs.filter (matchesFilter query_filter)
  if sort_spec.isEmpty then filtered else mongoSort sort_spec filtered

/-- The cursor materialization `list(mongo_query)` of `_handle_query_data`
(db_client_node.py:276-290): filter, then sort, then skip, then limit. -/
def queryResults (docs : List Document) (query_filter : Document)
    (sort_spec : List (String × Int)) (lim : Int) (skp : Nat) : List Document :=
  mongoLimit lim (mongoSkip skp (filteredSorted docs query_filter sort_spec))

/-! ## Message payloads and the query / command handlers -/

/-- The inbound payload fields used by the handlers (§6 of the spec); a
`none` field is absent from the dict. -/
structure Payload where
  command : Option String := none
  collection_name : Option String := none
  collection : Option String := none
  data : Option Document := none
  query : Option Document := none
  sort : Option (List (String × Int)) := none
  limit : Option Int := none
  skip : Option Nat := none
  request_id : Option String := none
  backup_name : Option String := none

/-- The outbound response payload fields produced by the handlers; `none`
fields are absent.  (The success payload of `_handle_query_data` also
echoes a `query_params` dict; no claim refers to it and it is omitted.) -/
structure ResponsePayload where
  status : String
  error_type : Option String := none
  message : Option String := none
  collection : Option String := none
  query_results : Option (List Document) := none
  count : Option Nat := none
  request_id : Option String := none
  inserted_id : Option String := none

/-- Python truthiness of an optional string (`if not collection_name`,
`if request_id`): absent and empty are both falsy. -/
def truthyStr : Option String → Bool
  | some s => s ≠ ""
  | none => false

/-- Python truthiness of an optional dict (`if collection_name and data`):
absent and empty are both falsy. -/
def truthyDoc : Option Document → Bool
  | some d => !d.isEmpty
  | none => false

/-- The `request_id` echo used by every response path of
`_handle_query_data` (db_client_node.py:308-310 etc.): the id is copied
into the response only when it is truthy. -/
def echoReqId (p : Payload) : Option String :=
  if truthyStr p.request_id then p.request_id else none

/-- `_handle_query_data` (db_client_node.py:247-432): validate the
collection parameter, check connectivity, run the query pipeline, convert
ObjectIds/datetimes in the results, and build the response payload; the
three `except` arms build the corresponding error payloads.  Returns the
response payload together with a flag recording whether the backing store
was accessed (the cursor was executed or its execution attempted).  The
response *routing* (master-core IPC address vs. origin address,
db_client_node.py:324-332) is outside every claim and not modelled. -/
def handle_query_data (o : FaultOracle) (connected : Bool) (db : Collections)
    (p : Payload) : ResponsePayload × Bool :=
  if !truthyStr p.collection then
    ({ status := "error", error_type := some "validation_error",
       message := some "Missing required parameter: 'collection'",
       collection := some (p.collection.getD "unknown"),
       request_id := echoReqId p }, false)
  else if !connected then
    ({ status := "error", error_type := some "connection_error",
       message := some "Database not connected",
       collection := some (p.collection.getD "unknown"),
       request_id := echoReqId p }, false)
  else
    let collection_name := p.collection.getD ""
    let query_filter := p.query.getD []
    let sort_spec := p.sort.getD []
    let lim := p.limit.getD 100
    let skp := p.skip.getD 0
    if o.findFails then
      ({ status := "error", error_type := some "database_error",
         message := some "query failed",
         collection := some (p.collection.getD "unknown"),
         request_id := echoReqId p }, true)
    else
      let results := queryResults (getColl db collection_name)
        query_filter sort_spec lim skp
      let converted := results.map convertFields
      ({ status := "success", collection := some collection_name,
         query_results := some converted, count := some converted.length,
         request_id := echoReqId p }, true)

/-- The node's database state: the collections and, per collection, its
index list. -/
structure DbState where
  collections : Collections
  indexes : List (String × List MongoIndex)

/-- Index-list lookup in the per-collection index table. -/
def lookupIndexTable : List (String × List MongoIndex) → String → List MongoIndex
  | [], _ => []
  | (n, idx) :: rest, name => if n = name then idx else lookupIndexTable rest name

/-- A collection's indexes; a collection the store has never seen has
none. -/
def getIndexes (st : DbState) (name : String) : List MongoIndex :=
  lookupIndexTable st.indexes name

/-- Replace a collection's index list in the state. -/
def setIndexes (st : DbState) (name : String) (idx : List MongoIndex) :
    DbState :=
  { st with indexes :=
      if st.indexes.any (fun e => e.1 = name) then
        st.indexes.map (fun e => if e.1 = name then (name, idx) else e)
      else st.indexes ++ [(name, idx)] }

/-- Append one document to a collection in the state. -/
def insertDoc (st : DbState) (name : String) (d : Document) : DbState :=
  { st with collections := insertManyColl st.collections name [d] }

/-- `_create_collection` (db_client_node.py:543-572): guard on
connectivity and a truthy name, then run the reconciler (its boolean is
ignored); returns a boolean to its caller. -/
def create_collection (o : FaultOracle) (ttl_days : Nat) (connected : Bool)
    (st : DbState) (name : Option String) : Bool × DbState :=
  if !connected then (false, st)
  else if !truthyStr name then (false, st)
  else
    let n := name.getD ""
    let r := ensure_ttl_index o ttl_days connected (getIndexes st n)
    (true, setIndexes st n r.2)

/-- `_drop_collection` (db_client_node.py:574-598): guard, then drop the
collection and its data (and with them its indexes). -/
def drop_collection (connected : Bool) (st : DbState)
    (name : Option String) : Bool × DbState :=
  if !connected then (false, st)
  else if !truthyStr name then (false, st)
  else
    let n := name.getD ""
    (true, { collections := st.collections.filter (fun c => c.1 ≠ n),
             indexes := st.indexes.filter (fun c => c.1 ≠ n) })

/-- `_handle_db_command` (db_client_node.py:190-245): dispatch on
`payload.command`; `now` is the `datetime.utcnow()` value stamped into
inserted documents and `newId` the ObjectId the store generates for an
insert.  Returns the list of RESPONSE payloads sent (in order) and the
resulting database state.  Only the `insert_one` and `query_data` arms
ever send a response; `create_collection`, `drop_collection` and
`get_stats` perform their work and send nothing. -/
def handle_db_command (o : FaultOracle) (connected : Bool) (ttl_days : Nat)
    (now newId : String) (st : DbState) (p : Payload) :
    List ResponsePayload × DbState :=
  if p.command = some "create_collection" then
    ([], (create_collection o ttl_days connected st p.collection_name).2)
  else if p.command = some "drop_collection" then
    ([], (drop_collection connected st p.collection_name).2)
  else if p.command = some "get_stats" then ([], st)
  else if p.command = some "insert_one" then
      if truthyStr p.collection && truthyDoc p.data then
        let c := p.collection.getD ""
        let d := p.data.getD []
        let r := ensure_ttl_index o ttl_days connected (getIndexes st c)
        let st1 := setIndexes st c r.2
        let stamped := setField d "created_at" (.dt now)
        if !connected || o.insertOneFails then
          ([{ status := "error", message := some "insert failed" }], st1)
        else
          ([{ status := "success", inserted_id := some newId }],
           insertDoc st1 c stamped)
      else ([], st)
  else if p.command = some "query_data" then
    ([(handle_query_data o connected st.collections p).1], st)
  else ([], st)

/-- The public `insert_data` method (db_client_node.py:651-683): bail out
when disconnected (before touching the data), reconcile the TTL index
(result ignored), stamp `created_at` into the caller's dict, insert.
The third component is the caller-visible value of the `data` argument
after the call — the Python code mutates the dict in place, so once the
stamping line has run the caller observes the stamped document. -/
def insert_data (o : FaultOracle) (connected : Bool) (ttl_days : Nat)
    (st : DbState) (collection_name : String) (d : Document) (now : String) :
    Bool × DbState × Document :=
  if !connected then (false, st, d)
  else
    let r := ensure_ttl_index o ttl_days connected (getIndexes st collection_name)
    let st1 := setIndexes st collection_name r.2
    let stamped := setField d "created_at" (.dt now)
    if o.insertOneFails then (false, st1, stamped)
    else (true, insertDoc st1 collection_name stamped, stamped)

end DbClient

namespace DbClient

/-! ## Helper lemmas -/

/-- Stamping `created_at` overwrites any value the document already had. -/
theorem getField_setField (d : Document) (k : String) (v : BValue) :
    getField (setField d k v) k = some v := by
  induction d with
  | nil => simp [setField, getField]
  | cons kv rest ih =>
      obtain ⟨k', v'⟩ := kv
      by_cases h : k' = k
      · simp [setField, h, getField]
      · simpa [setField, h, getField] using ih

/-- `setField` leaves every other field unchanged. -/
theorem getField_setField_ne (d : Document) (k k' : String) (v : BValue)
    (h : k' ≠ k) : getField (setField d k v) k' = getField d k' := by
  induction d with
  | nil => simp [setField, getField, Ne.symm h]
  | cons kv rest ih =>
      obtain ⟨k₀, v₀⟩ := kv
      by_cases h0 : k₀ = k
      · subst h0
        simp [setField, getField, Ne.symm h]
      · by_cases h1 : k₀ = k'
        · simp [setField, h0, getField, h1, h]
        · simpa [setField, h0, getField, h1] using ih

/-- `insert_many` appends to the target collection. -/
theorem getColl_insertManyColl (db : Collections) (n : String)
    (ds : List Document) :
    getColl (insertManyColl db n ds) n = getColl db n ++ ds := by
  induction db with
  | nil => simp [insertManyColl, getColl]
  | cons c rest ih =>
      obtain ⟨m, es⟩ := c
      by_cases h : m = n
      · subst h
        simp [insertManyColl, getColl]
      · simpa [insertManyColl, h, getColl] using ih

/-- `cursor.skip` is `List.drop` (the `if skip > 0` guard is redundant:
dropping zero elements changes nothing). -/
theorem mongoSkip_eq_drop (s : Nat) (xs : List Document) :
    mongoSkip s xs = xs.drop s := by
  unfold mongoSkip
  split
  · rfl
  · have hs : s = 0 := by omega
    simp [hs]

end DbClient

namespace DbClient

/-- C1: the claim says restore recovers each target collection name by
stripping the snapshot-name prefix from the artifact filename.  The code
instead takes everything after the FIRST underscore of the stem
(`stem.split('_', 1)[1]`, db_client_node.py:473).  Generated snapshot
names (`backup_YYYYMMDD_HHMMSS`) contain underscores, so for snapshot
`backup_20250101_120000` the artifact of collection `sensors` is restored
into a collection named `20250101_120000_sensors`, not `sensors`: the
documents are bulk-inserted (additively) under the wrong name. -/
theorem C1_restore_recovers_wrong_collection_name :
    restore_backup "backup_20250101_120000"
      [("backup_20250101_120000_sensors", [[("x", BValue.int 1)]])] [] =
      [("20250101_120000_sensors", [[("x", BValue.int 1)]])] := by
  rfl

/-- C4: the claim (and the method's own docstring) says every ObjectId and
datetime value is converted to a string recursively through nested
dictionaries and sequences at any depth.  But `_convert_objectids` only
touches list elements that are dicts (db_client_node.py:443), so an
ObjectId or datetime appearing directly inside a list value survives
unconverted: the pass is the identity on this document. -/
theorem C4_objectid_inside_array_not_converted :
    convert_objectids
      [BValue.doc [("ids", BValue.arr [BValue.oid "64a1", BValue.dt "2025-01-01T00:00:00"])]] =
      [BValue.doc [("ids", BValue.arr [BValue.oid "64a1", BValue.dt "2025-01-01T00:00:00"])]] := by
  rfl

/-- C7: the claim says backup followed by restore into a freshly empty
collection yields at least the original documents (with identifiers and
timestamps as strings).  Because restore recovers the collection name by
splitting at the first underscore (see `C1`), restoring the backup of
collection `sensors` taken at timestamp `20250101_120000` into an empty
database puts every document into `20250101_120000_sensors` and leaves
`sensors` itself empty: the round-trip loses the collection binding. -/
theorem C7_round_trip_restores_into_wrong_collection :
    (restore_backup (backupNameOf "20250101_120000")
      (perform_backup "20250101_120000"
        [("sensors", [[("temp", BValue.int 20), ("_id", BValue.oid "64a1")]])])
      [] =
      [("20250101_120000_sensors",
        [[("temp", BValue.int 20), ("_id", BValue.str "64a1")]])]) ∧
    getColl
      (restore_backup (backupNameOf "20250101_120000")
        (perform_backup "20250101_120000"
          [("sensors", [[("temp", BValue.int 20), ("_id", BValue.oid "64a1")]])])
        [])
      "sensors" = [] := by
  exact ⟨rfl, rfl⟩

/-- C2 counterexample: the dispatcher does not answer every command.  A
`get_stats` command carrying a request id produces no RESPONSE at all,
and a successful `insert_one` RESPONSE never echoes the request id the
inbound payload carried. -/
theorem C2_get_stats_and_insert_one_counterexample :
    (handle_db_command noFaults true 7 "t0" "id0" ⟨[], []⟩
      { command := some "get_stats", request_id := some "r1" }).1 = [] ∧
    ((handle_db_command noFaults true 7 "t0" "id0" ⟨[], []⟩
      { command := some "insert_one", collection := some "c",
        data := some [("x", BValue.int 1)], request_id := some "r1" }).1.map
        (fun r => r.request_id)) = [none] := by
  exact ⟨rfl, rfl⟩

end DbClient

namespace DbClient

/-- Every path of `_handle_query_data` — validation error, connection
error, database error, success — builds one response whose status is
`success` or `error` and whose request-id field follows the truthy-echo
rule of the code. -/
theorem handle_query_data_shape (o : FaultOracle) (connected : Bool)
    (db : Collections) (p : Payload) :
    ((handle_query_data o connected db p).1.status = "success" ∨
     (handle_query_data o connected db p).1.status = "error") ∧
    (handle_query_data o connected db p).1.request_id = echoReqId p := by
  unfold handle_query_data
  cases h1 : truthyStr p.collection with
  | false => simp [h1]
  | true =>
      cases h2 : connected with
      | false => simp [h1, h2]
      | true =>
          cases h3 : o.findFails with
          | false => simp [h1, h2, h3]
          | true => simp [h1, h2, h3]

/-- C6: a query command whose payload is missing the `collection`
parameter is answered with an error response of error type
`validation_error`, the supplied request id is echoed verbatim, and the
backing store is never accessed.  (Request ids are opaque non-empty
tokens: the code's truthiness echo drops an empty-string id, which the
wire convention treats as absent, hence the non-emptiness hypothesis.) -/
theorem C6_missing_collection_is_validation_error (o : FaultOracle)
    (connected : Bool) (db : Collections) (p : Payload)
    (hc : p.collection = none)
    (hr : ∀ r, p.request_id = some r → r ≠ "") :
    (handle_query_data o connected db p).1.status = "error" ∧
    (handle_query_data o connected db p).1.error_type = some "validation_error" ∧
    (handle_query_data o connected db p).1.request_id = p.request_id ∧
    (handle_query_data o connected db p).2 = false := by
  have ht : truthyStr p.collection = false := by rw [hc]; rfl
  have he : echoReqId p = p.request_id := by
    unfold echoReqId truthyStr
    cases hreq : p.request_id with
    | none => simp
    | some r => simp [hr r hreq]
  unfold handle_query_data
  rw [ht]
  exact ⟨rfl, rfl, he, rfl⟩

/-- Witness for `C6_missing_collection_is_validation_error` at a concrete
payload carrying a request id but no collection. -/
theorem C6_missing_collection_witness :
    (handle_query_data noFaults true [] { request_id := some "r1" }).1.status = "error" ∧
    (handle_query_data noFaults true [] { request_id := some "r1" }).1.error_type =
      some "validation_error" ∧
    (handle_query_data noFaults true [] { request_id := some "r1" }).1.request_id =
      some "r1" ∧
    (handle_query_data noFaults true [] { request_id := some "r1" }).2 = false :=
  C6_missing_collection_is_validation_error noFaults true []
    { request_id := some "r1" } rfl
    (by intro r h; injection h with h'; subst h'; decide)

end DbClient

namespace DbClient

/-- C2 (amended): only the `query_data` dispatch path guarantees a
RESPONSE with status in \x7bsuccess, error\x7d echoing a (truthy) request id.
The `insert_one` path sends exactly one RESPONSE — success or error —
only when both `collection` and `data` are truthy, and that response
never carries a request id; with either parameter missing it sends
nothing.  The `create_collection`, `drop_collection` and `get_stats`
paths never send a RESPONSE at all. -/
theorem C2_dispatch_response_amended (o : FaultOracle) (connected : Bool)
    (ttl_days : Nat) (now newId : String) (st : DbState) (p : Payload) :
    (p.command = some "query_data" →
      ∃ r, (handle_db_command o connected ttl_days now newId st p).1 = [r] ∧
        (r.status = "success" ∨ r.status = "error") ∧
        r.request_id = echoReqId p) ∧
    (p.command = some "insert_one" →
      ((truthyStr p.collection && truthyDoc p.data) = true →
        ∃ r, (handle_db_command o connected ttl_days now newId st p).1 = [r] ∧
          (r.status = "success" ∨ r.status = "error") ∧
          r.request_id = none) ∧
      ((truthyStr p.collection && truthyDoc p.data) = false →
        (handle_db_command o connected ttl_days now newId st p).1 = [])) ∧
    (p.command = some "create_collection" ∨ p.command = some "drop_collection" ∨
      p.command = some "get_stats" →
      (handle_db_command o connected ttl_days now newId st p).1 = []) := by
  refine ⟨?_, ?_, ?_⟩
  · intro hc
    refine ⟨(handle_query_data o connected st.collections p).1, ?_,
      (handle_query_data_shape o connected st.collections p).1,
      (handle_query_data_shape o connected st.collections p).2⟩
    simp [handle_db_command, hc]
  · intro hc
    constructor
    · intro htr
      simp only [handle_db_command, hc, Option.some.injEq, String.reduceEq,
        if_false, if_true, htr, if_pos, reduceIte]
      cases h : (!connected || o.insertOneFails) with
      | true => exact ⟨_, rfl, Or.inr rfl, rfl⟩
      | false => exact ⟨_, rfl, Or.inl rfl, rfl⟩
    · intro htr
      simp [handle_db_command, hc, htr]
  · intro hc
    rcases hc with hc | hc | hc <;> simp [handle_db_command, hc]

end DbClient

namespace DbClient

/-- Witness for `C2_dispatch_response_amended`: the concrete `query_data`
command with request id `r1` is answered by exactly one response echoing
`r1`. -/
theorem C2_dispatch_response_amended_witness :
    ((handle_db_command noFaults true 7 "t0" "id0" ⟨[], []⟩
      { command := some "query_data", collection := some "c",
        request_id := some "r1" }).1.map (fun r => r.request_id)) =
      [some "r1"] := by
  obtain ⟨r, hr, _, hid⟩ :=
    (C2_dispatch_response_amended noFaults true 7 "t0" "id0" ⟨[], []⟩
      { command := some "query_data", collection := some "c",
        request_id := some "r1" }).1 rfl
  rw [hr, List.map_singleton, hid]
  rfl

/-- The managed TTL index as the reconciler creates it for retention `R`. -/
def ttlIndexFor (R : Nat) : MongoIndex :=
  ⟨"created_at_1", [("created_at", 1)], some (R * 86400)⟩

/-- On a fresh collection the reconciler's run creates exactly the managed
TTL index, appended to the existing indexes, and reports success. -/
theorem ensure_ttl_index_fresh (R : Nat) (indexes : List MongoIndex)
    (hfresh : FreshIndexes indexes) :
    ensure_ttl_index noFaults R true indexes =
      (true, indexes ++ [ttlIndexFor R]) := by
  have hfind : findTtlIndex indexes = none := by
    apply List.find?_eq_none.mpr
    intro i hi
    simp [(hfresh i hi).1]
  have hany : indexes.any
      (fun i => i.name = "created_at_1" || i.key = [("created_at", 1)]) = false := by
    rw [List.any_eq_false]
    intro i hi
    simp [(hfresh i hi).1, (hfresh i hi).2.2]
  unfold ensure_ttl_index ensureTtlBody createTtlIndex
  simp [hfind, hany, noFaults, ttlIndexFor]

/-- After appending the managed index to a fresh index list, the
reconciler's scan finds exactly it. -/
theorem findTtlIndex_append_managed (indexes : List MongoIndex) (R : Nat)
    (hfresh : FreshIndexes indexes) :
    findTtlIndex (indexes ++ [ttlIndexFor R]) = some (ttlIndexFor R) := by
  unfold findTtlIndex
  rw [List.find?_append]
  have h1 : indexes.find?
      (fun i => i.name = "created_at_1" && i.expireAfterSeconds.isSome) = none := by
    apply List.find?_eq_none.mpr
    intro i hi
    simp [(hfresh i hi).1]
  simp [h1, ttlIndexFor]

/-- A fresh index list contributes no TTL indexes to the count. -/
theorem ttlCount_append_managed (indexes : List MongoIndex) (i : MongoIndex)
    (hfresh : FreshIndexes indexes) (hi : i.expireAfterSeconds.isSome) :
    ttlCount (indexes ++ [i]) = 1 := by
  unfold ttlCount
  rw [List.countP_append]
  have h0 : indexes.countP (fun i => i.expireAfterSeconds.isSome) = 0 := by
    apply List.countP_eq_zero.mpr
    intro j hj
    simp [(hfresh j hj).2.1]
  simp [h0, hi]

/-- C3: on a fresh collection (no index named `created_at_1`, no TTL
index, no index keyed on `created_at` — e.g. only the automatic `_id_`
index), running the reconciler twice with the same retention `R1`
produces exactly one TTL index and the second run returns success with
the index state unchanged (idempotence); running it with `R1` and then a
different `R2` leaves exactly one TTL index whose `expireAfterSeconds`
is `R2 * 86400` (convergence without duplication). -/
theorem C3_ttl_reconciler_idempotent_and_convergent (R1 R2 : Nat)
    (indexes : List MongoIndex) (hfresh : FreshIndexes indexes) :
    (ttlCount (ensure_ttl_index noFaults R1 true indexes).2 = 1 ∧
     ensure_ttl_index noFaults R1 true
         (ensure_ttl_index noFaults R1 true indexes).2 =
       (true, (ensure_ttl_index noFaults R1 true indexes).2)) ∧
    (R1 ≠ R2 →
      findTtlIndex (ensure_ttl_index noFaults R2 true
          (ensure_ttl_index noFaults R1 true indexes).2).2 =
        some (ttlIndexFor R2) ∧
      ttlCount (ensure_ttl_index noFaults R2 true
          (ensure_ttl_index noFaults R1 true indexes).2).2 = 1) := by
  have h1 := ensure_ttl_index_fresh R1 indexes hfresh
  rw [h1]
  have hfind := findTtlIndex_append_managed indexes R1 hfresh
  refine ⟨⟨ttlCount_append_managed indexes _ hfresh rfl, ?_⟩, ?_⟩
  · unfold ensure_ttl_index ensureTtlBody
    rw [hfind]
    simp [noFaults, ttlIndexFor]
  · intro hne
    have hexp : (ttlIndexFor R1).expireAfterSeconds ≠ some (R2 * 86400) := by
      simp only [ttlIndexFor, ne_eq, Option.some.injEq]
      intro h
      exact hne (Nat.eq_of_mul_eq_mul_right (by norm_num) h)
    have hmod : collModTtl (R2 * 86400) (indexes ++ [ttlIndexFor R1]) =
        some (indexes ++ [ttlIndexFor R2]) := by
      unfold collModTtl
      have hany : (indexes ++ [ttlIndexFor R1]).any
          (fun i => i.key = [("created_at", 1)]) = true := by
        simp [ttlIndexFor]
      rw [if_pos hany, List.map_append]
      have hmap : indexes.map (fun i =>
          if i.key = [("created_at", 1)] then
            { i with expireAfterSeconds := some (R2 * 86400) } else i) = indexes := by
        conv_rhs => rw [← List.map_id indexes]
        exact List.map_congr_left (fun i hi => by simp [(hfresh i hi).2.2])
      simp [hmap, ttlIndexFor]
    have h2 : ensure_ttl_index noFaults R2 true (indexes ++ [ttlIndexFor R1]) =
        (true, indexes ++ [ttlIndexFor R2]) := by
      unfold ensure_ttl_index ensureTtlBody
      simp [hfind, noFaults, hexp, hmod]
    rw [h2]
    exact ⟨findTtlIndex_append_managed indexes R2 hfresh,
      ttlCount_append_managed indexes _ hfresh rfl⟩

/-- Witness for `C3_ttl_reconciler_idempotent_and_convergent`: a
collection holding only the automatic `_id_` index, retentions 7 then 3
days. -/
theorem C3_ttl_reconciler_witness :
    (ttlCount (ensure_ttl_index noFaults 7 true
        [⟨"_id_", [("_id", 1)], none⟩]).2 = 1 ∧
     ensure_ttl_index noFaults 7 true
         (ensure_ttl_index noFaults 7 true [⟨"_id_", [("_id", 1)], none⟩]).2 =
       (true, (ensure_ttl_index noFaults 7 true
         [⟨"_id_", [("_id", 1)], none⟩]).2)) ∧
    (findTtlIndex (ensure_ttl_index noFaults 3 true
        (ensure_ttl_index noFaults 7 true [⟨"_id_", [("_id", 1)], none⟩]).2).2 =
      some (ttlIndexFor 3) ∧
     ttlCount (ensure_ttl_index noFaults 3 true
        (ensure_ttl_index noFaults 7 true [⟨"_id_", [("_id", 1)], none⟩]).2).2 = 1) := by
  have h := C3_ttl_reconciler_idempotent_and_convergent 7 3
    [⟨"_id_", [("_id", 1)], none⟩] (by intro i hi; simp at hi; simp [hi])
  exact ⟨h.1, h.2 (by decide)⟩

end DbClient

namespace DbClient

/-- C5: the query executor applies the filter first, then the sort in the
given field order, then skip, then limit; consequently, for the dataset
of N documents the query ranges over (those matching the filter, in the
requested sort order) and a positive limit L and skip S with S + L ≤ N,
the returned result set is exactly the documents at positions [S, S+L)
of that order.  (Limit must be a positive integer per the input contract
of §4.2; the external store treats limit 0 as "no limit".) -/
theorem C5_pagination_window (docs : List Document) (query_filter : Document)
    (sort_spec : List (String × Int)) (L S : Nat) (hL : 0 < L)
    (hbound : S + L ≤ (filteredSorted docs query_filter sort_spec).length) :
    (queryResults docs query_filter sort_spec (L : Int) S).length = L ∧
    ∀ i : Nat, i < L →
      (queryResults docs query_filter sort_spec (L : Int) S)[i]? =
        (filteredSorted docs query_filter sort_spec)[S + i]? := by
  have hq : queryResults docs query_filter sort_spec (L : Int) S =
      ((filteredSorted docs query_filter sort_spec).drop S).take L := by
    unfold queryResults mongoLimit
    rw [mongoSkip_eq_drop]
    have hne : (L : Int) ≠ 0 := by
      exact_mod_cast Nat.pos_iff_ne_zero.mp hL
    rw [if_neg hne]
    simp
  constructor
  · rw [hq, List.length_take, List.length_drop]
    exact inf_eq_left.mpr (by omega)
  · intro i hi
    rw [hq, List.getElem?_take, if_pos hi, List.getElem?_drop]

/-- Witness for `C5_pagination_window`: three documents sorted ascending
on `x`, limit 1, skip 1 — the window picks exactly the middle document. -/
theorem C5_pagination_window_witness :
    (queryResults
      [[("x", BValue.int 3)], [("x", BValue.int 1)], [("x", BValue.int 2)]]
      [] [("x", 1)] ((1 : Nat) : Int) 1).length = 1 ∧
    (queryResults
      [[("x", BValue.int 3)], [("x", BValue.int 1)], [("x", BValue.int 2)]]
      [] [("x", 1)] ((1 : Nat) : Int) 1)[0]? =
      (filteredSorted
        [[("x", BValue.int 3)], [("x", BValue.int 1)], [("x", BValue.int 2)]]
        [] [("x", 1)])[1 + 0]? := by
  have h := C5_pagination_window
    [[("x", BValue.int 3)], [("x", BValue.int 1)], [("x", BValue.int 2)]]
    [] [("x", 1)] 1 1 (by decide) (by decide)
  exact ⟨h.1, h.2 0 (by decide)⟩

end DbClient

namespace DbClient

/-- C9: any internal failure of TTL-index reconciliation is caught at the
`_ensure_ttl_index` boundary — the function returns `False` with the
index state untouched instead of letting the exception escape — and the
`insert_one` path ignores that boolean: the document is still stamped,
inserted, and acknowledged with a success response. -/
theorem C9_reconciliation_failure_is_nonfatal (o : FaultOracle)
    (ttl_days : Nat) (st : DbState) (p : Payload) (now newId : String)
    (hcmd : p.command = some "insert_one")
    (hcoll : truthyStr p.collection = true) (hdata : truthyDoc p.data = true)
    (hfail : (ensureTtlBody o ttl_days true
      (getIndexes st (p.collection.getD ""))).isOk = false)
    (hins : o.insertOneFails = false) :
    ensure_ttl_index o ttl_days true (getIndexes st (p.collection.getD "")) =
      (false, getIndexes st (p.collection.getD "")) ∧
    (handle_db_command o true ttl_days now newId st p).1 =
      [{ status := "success", inserted_id := some newId }] ∧
    setField (p.data.getD []) "created_at" (.dt now) ∈
      getColl (handle_db_command o true ttl_days now newId st p).2.collections
        (p.collection.getD "") := by
  have hens : ensure_ttl_index o ttl_days true
      (getIndexes st (p.collection.getD "")) =
      (false, getIndexes st (p.collection.getD "")) := by
    unfold ensure_ttl_index
    cases h : ensureTtlBody o ttl_days true
        (getIndexes st (p.collection.getD "")) with
    | ok r => rw [h] at hfail; simp [Except.isOk, Except.toBool] at hfail
    | error e => rfl
  have hout : handle_db_command o true ttl_days now newId st p =
      ([{ status := "success", inserted_id := some newId }],
       insertDoc (setIndexes st (p.collection.getD "")
           (ensure_ttl_index o ttl_days true
             (getIndexes st (p.collection.getD ""))).2)
         (p.collection.getD "")
         (setField (p.data.getD []) "created_at" (.dt now))) := by
    simp [handle_db_command, hcmd, hcoll, hdata, hins]
  refine ⟨hens, ?_, ?_⟩
  · rw [hout]
  · rw [hout]
    simp only [insertDoc, setIndexes]
    rw [getColl_insertManyColl]
    exact List.mem_append_right _ (List.mem_singleton.mpr rfl)

/-- Witness for `C9_reconciliation_failure_is_nonfatal`: the store's
`list_indexes` call fails, the reconciler reports `False` without
raising, and the insert of a concrete document still succeeds. -/
theorem C9_reconciliation_failure_witness :
    ensure_ttl_index ⟨true, false, false, false, false⟩ 7 true [] =
      (false, []) ∧
    (handle_db_command ⟨true, false, false, false, false⟩ true 7 "t0" "id0" ⟨[], []⟩ { command := some "insert_one", collection := some "c", data := some [("x", BValue.int 1)] }).1 =
      [{ status := "success", inserted_id := some "id0" }] ∧
    setField [("x", BValue.int 1)] "created_at" (.dt "t0") ∈
      getColl (handle_db_command ⟨true, false, false, false, false⟩ true 7 "t0" "id0" ⟨[], []⟩ { command := some "insert_one", collection := some "c", data := some [("x", BValue.int 1)] }).2.collections "c" :=
  C9_reconciliation_failure_is_nonfatal ⟨true, false, false, false, false⟩
    7 ⟨[], []⟩
    { command := some "insert_one", collection := some "c",
      data := some [("x", BValue.int 1)] } "t0" "id0" rfl rfl rfl rfl rfl

/-- C10: both insert paths — the `insert_one` command and the
`insert_data` method — write the `created_at` stamp into the
caller-supplied document itself (in-place dict mutation, modelled by the
post-call value `insert_data` returns), overwriting any `created_at` the
caller supplied and touching no other field, before the document is
stored: the stored document is exactly the stamped caller document. -/
theorem C10_insert_stamps_caller_document (o : FaultOracle) (ttl_days : Nat)
    (st : DbState) (c : String) (d : Document) (now newId : String)
    (p : Payload)
    (hcmd : p.command = some "insert_one") (hpc : p.collection = some c)
    (hpd : p.data = some d)
    (hc : truthyStr (some c) = true) (hd : truthyDoc (some d) = true)
    (hins : o.insertOneFails = false) :
    (insert_data o true ttl_days st c d now).2.2 =
      setField d "created_at" (.dt now) ∧
    getColl (insert_data o true ttl_days st c d now).2.1.collections c =
      getColl st.collections c ++ [setField d "created_at" (.dt now)] ∧
    getColl (handle_db_command o true ttl_days now newId st p).2.collections c =
      getColl st.collections c ++ [setField d "created_at" (.dt now)] ∧
    getField (setField d "created_at" (.dt now)) "created_at" =
      some (.dt now) ∧
    ∀ k, k ≠ "created_at" →
      getField (setField d "created_at" (.dt now)) k = getField d k := by
  have hid : insert_data o true ttl_days st c d now =
      (true,
       insertDoc (setIndexes st c
           (ensure_ttl_index o ttl_days true (getIndexes st c)).2) c
         (setField d "created_at" (.dt now)),
       setField d "created_at" (.dt now)) := by
    simp [insert_data, hins]
  have hout : handle_db_command o true ttl_days now newId st p =
      ([{ status := "success", inserted_id := some newId }],
       insertDoc (setIndexes st c
           (ensure_ttl_index o ttl_days true (getIndexes st c)).2) c
         (setField d "created_at" (.dt now))) := by
    simp [handle_db_command, hcmd, hpc, hpd, hc, hd, hins]
  refine ⟨?_, ?_, ?_, getField_setField d "created_at" (.dt now),
    fun k hk => getField_setField_ne d "created_at" k (.dt now) hk⟩
  · rw [hid]
  · rw [hid]
    simp only [insertDoc, setIndexes]
    rw [getColl_insertManyColl]
  · rw [hout]
    simp only [insertDoc, setIndexes]
    rw [getColl_insertManyColl]

/-- Witness for `C10_insert_stamps_caller_document`: a caller document
that already carries `created_at` has it overwritten with the insert-time
stamp, the stamped dict is what both paths store, and the unrelated field
`x` survives. -/
theorem C10_insert_stamps_witness :
    (insert_data noFaults true 7 ⟨[], []⟩ "c"
      [("x", BValue.int 1), ("created_at", BValue.dt "old")] "t1").2.2 =
      setField [("x", BValue.int 1), ("created_at", BValue.dt "old")]
        "created_at" (.dt "t1") ∧
    getColl (handle_db_command noFaults true 7 "t1" "id0" ⟨[], []⟩
      { command := some "insert_one", collection := some "c",
        data := some [("x", BValue.int 1), ("created_at", BValue.dt "old")] }
      ).2.collections "c" =
      getColl (⟨[], []⟩ : DbState).collections "c" ++
        [setField [("x", BValue.int 1), ("created_at", BValue.dt "old")]
          "created_at" (.dt "t1")] ∧
    getField (setField [("x", BValue.int 1), ("created_at", BValue.dt "old")]
      "created_at" (.dt "t1")) "created_at" = some (.dt "t1") ∧
    getField (setField [("x", BValue.int 1), ("created_at", BValue.dt "old")]
      "created_at" (.dt "t1")) "x" =
      getField [("x", BValue.int 1), ("created_at", BValue.dt "old")] "x" := by
  have h := C10_insert_stamps_caller_document noFaults 7 ⟨[], []⟩ "c"
    [("x", BValue.int 1), ("created_at", BValue.dt "old")] "t1" "id0"
    { command := some "insert_one", collection := some "c",
      data := some [("x", BValue.int 1), ("created_at", BValue.dt "old")] }
    rfl rfl rfl rfl rfl rfl
  exact ⟨h.1, h.2.2.1, h.2.2.2.1, h.2.2.2.2 "x" (by decide)⟩

end DbClient
